import Mathlib

/-!
Verification development for the FileCleaner duplicate-file scanner
(`core_logic.py`).

The embedding is shallow: the filesystem, the platform clock and the
interactive collaborators are explicit parameters; the pure computations
(MD5 fingerprinting, the coordinator's collection fold, the resolver's
original/duplicate decision) are translated function by function from the
source.  Machine words are `Nat` reduced modulo `2^32`; Python's
`(path, hash)` result tuple is a pair of `Option String`; fallible OS
calls are `Except String` values; every `print` is returned as a log line.
-/

/-! ## Word-level helpers (32-bit arithmetic on `Nat`) -/

/-- Reduce a natural number to a 32-bit word. -/
def w32 (x : Nat) : Nat := x % 4294967296

/-- Bitwise complement of a 32-bit word. -/
def wnot (x : Nat) : Nat := Nat.xor (w32 x) 4294967295

/-- Left-rotation of a 32-bit word by `s` bits. -/
def rotl32 (x s : Nat) : Nat := w32 ((x <<< s) ||| (x >>> (32 - s)))

/-! ## MD5 (`hashlib.md5`)

A faithful executable model of the MD5 digest used by
`calculate_file_hash`: padding, 64-operation compression per 512-bit
block, little-endian word/byte conversions, lowercase hex rendering. -/

/-- The 64 MD5 round constants `K[i] = floor(2^32 * |sin(i+1)|)`. -/
def md5K : List Nat :=
  [0xd76aa478, 0xe8c7b756, 0x242070db, 0xc1bdceee,
   0xf57c0faf, 0x4787c62a, 0xa8304613, 0xfd469501,
   0x698098d8, 0x8b44f7af, 0xffff5bb1, 0x895cd7be,
   0x6b901122, 0xfd987193, 0xa679438e, 0x49b40821,
   0xf61e2562, 0xc040b340, 0x265e5a51, 0xe9b6c7aa,
   0xd62f105d, 0x02441453, 0xd8a1e681, 0xe7d3fbc8,
   0x21e1cde6, 0xc33707d6, 0xf4d50d87, 0x455a14ed,
   0xa9e3e905, 0xfcefa3f8, 0x676f02d9, 0x8d2a4c8a,
   0xfffa3942, 0x8771f681, 0x6d9d6122, 0xfde5380c,
   0xa4beea44, 0x4bdecfa9, 0xf6bb4b60, 0xbebfbc70,
   0x289b7ec6, 0xeaa127fa, 0xd4ef3085, 0x04881d05,
   0xd9d4d039, 0xe6db99e5, 0x1fa27cf8, 0xc4ac5665,
   0xf4292244, 0x432aff97, 0xab9423a7, 0xfc93a039,
   0x655b59c3, 0x8f0ccc92, 0xffeff47d, 0x85845dd1,
   0x6fa87e4f, 0xfe2ce6e0, 0xa3014314, 0x4e0811a1,
   0xf7537e82, 0xbd3af235, 0x2ad7d2bb, 0xeb86d391]

/-- The 64 per-operation left-rotation amounts. -/
def md5S : List Nat :=
  [7, 12, 17, 22, 7, 12, 17, 22, 7, 12, 17, 22, 7, 12, 17, 22,
   5, 9, 14, 20, 5, 9, 14, 20, 5, 9, 14, 20, 5, 9, 14, 20,
   4, 11, 16, 23, 4, 11, 16, 23, 4, 11, 16, 23, 4, 11, 16, 23,
   6, 10, 15, 21, 6, 10, 15, 21, 6, 10, 15, 21, 6, 10, 15, 21]

/-- MD5 initial state `(a0, b0, c0, d0)`. -/
def md5Init : Nat × Nat × Nat × Nat :=
  (0x67452301, 0xefcdab89, 0x98badcfe, 0x10325476)

/-- One of the 64 operations of the MD5 compression function, acting on
state `(A, B, C, D)` with message words `M`. -/
def md5Op (M : List Nat) (st : Nat × Nat × Nat × Nat) (i : Nat) :
    Nat × Nat × Nat × Nat :=
  let A := st.1
  let B := st.2.1
  let C := st.2.2.1
  let D := st.2.2.2
  let F :=
    if i < 16 then (B &&& C) ||| (wnot B &&& D)
    else if i < 32 then (D &&& B) ||| (wnot D &&& C)
    else if i < 48 then Nat.xor (Nat.xor B C) D
    else Nat.xor C (B ||| wnot D)
  let g :=
    if i < 16 then i
    else if i < 32 then (5 * i + 1) % 16
    else if i < 48 then (3 * i + 5) % 16
    else (7 * i) % 16
  let F2 := w32 (F + A + md5K.getD i 0 + M.getD g 0)
  (D, w32 (B + rotl32 F2 (md5S.getD i 0)), B, C)

/-- The MD5 compression function for one 16-word block. -/
def md5Block (st : Nat × Nat × Nat × Nat) (M : List Nat) :
    Nat × Nat × Nat × Nat :=
  let r := (List.range 64).foldl (md5Op M) st
  (w32 (st.1 + r.1), w32 (st.2.1 + r.2.1),
   w32 (st.2.2.1 + r.2.2.1), w32 (st.2.2.2 + r.2.2.2))

/-- Iterate the compression function over a word stream, 16 words at a
time (the padded message always splits into full 16-word blocks). -/
def md5Blocks : Nat × Nat × Nat × Nat → List Nat → Nat × Nat × Nat × Nat
  | st, w0 :: w1 :: w2 :: w3 :: w4 :: w5 :: w6 :: w7 ::
        w8 :: w9 :: w10 :: w11 :: w12 :: w13 :: w14 :: w15 :: rest =>
      md5Blocks
        (md5Block st [w0, w1, w2, w3, w4, w5, w6, w7,
                      w8, w9, w10, w11, w12, w13, w14, w15]) rest
  | st, _ => st

/-- Assemble a byte list into 32-bit words, little-endian. -/
def toWordsLE : List Nat → List Nat
  | b0 :: b1 :: b2 :: b3 :: rest =>
      (b0 + 256 * b1 + 65536 * b2 + 16777216 * b3) :: toWordsLE rest
  | _ => []

/-- The eight little-endian bytes of the 64-bit message bit length. -/
def lenBytes (L : Nat) : List Nat :=
  (List.range 8).map (fun i => ((8 * L) >>> (8 * i)) % 256)

/-- MD5 padding: a `0x80` byte, zeros to 56 mod 64, then the bit length. -/
def padMsg (msg : List Nat) : List Nat :=
  let L := msg.length
  let z := (119 - L % 64) % 64
  msg ++ [128] ++ List.replicate z 0 ++ lenBytes L

/-- The four little-endian bytes of a 32-bit word. -/
def wordLE (w : Nat) : List Nat :=
  [w % 256, (w >>> 8) % 256, (w >>> 16) % 256, (w >>> 24) % 256]

/-- The 16-byte MD5 digest of a byte string. -/
def md5Bytes (msg : List Nat) : List Nat :=
  let st := md5Blocks md5Init (toWordsLE (padMsg msg))
  wordLE st.1 ++ wordLE st.2.1 ++ wordLE st.2.2.1 ++ wordLE st.2.2.2

/-- Lowercase hexadecimal digit for `n < 16`. -/
def hexDigitChar (n : Nat) : Char :=
  if n < 10 then Char.ofNat (48 + n) else Char.ofNat (87 + n)

/-- Two lowercase hex characters of a byte. -/
def byteToHex (b : Nat) : List Char :=
  [hexDigitChar (b / 16), hexDigitChar (b % 16)]

/-- `hexdigest()`: the 32-character lowercase hex rendering of the MD5
digest. -/
def md5hex (msg : List Nat) : String :=
  String.mk ((md5Bytes msg).flatMap byteToHex)

set_option maxRecDepth 1000000

/-! ## Filesystem model

`os.path.isfile` and the `open`/`read` calls are modelled by an explicit
environment.  `readFile` returns the file's full byte content, or the
error message of the `IOError`/`PermissionError` raised while opening or
reading. -/

structure FileSystem where
  isfile : String → Bool
  readFile : String → Except String (List Nat)

/-- The `while chunk := f.read(chunk_size)` loop of `calculate_file_hash`:
absorb the content into the incremental hasher 8192 bytes at a time.  The
hasher state is modelled extensionally as the byte sequence absorbed so
far (hashlib's `update` appends; `hexdigest` is `md5hex` of the absorbed
bytes). -/
def hashLoop (hasher content : List Nat) : List Nat :=
  if h : content = [] then hasher
  else hashLoop (hasher ++ content.take 8192) (content.drop 8192)
termination_by content.length
decreasing_by
  simp only [List.length_drop]
  exact Nat.sub_lt (List.length_pos.mpr h) (by decide)

/-- `calculate_file_hash` (lines 62-79): re-check that the path is a
regular file, stream its bytes through MD5, and return the
`(file_path, hexdigest)` pair; any read failure is logged and yields
`(None, None)`.  The second component of the result is the list of lines
printed. -/
def calculate_file_hash (fs : FileSystem) (file_path : String) :
    (Option String × Option String) × List String :=
  if !(fs.isfile file_path) then ((none, none), [])
  else
    match fs.readFile file_path with
    | .ok content =>
        ((some file_path, some (md5hex (hashLoop [] content))), [])
    | .error e =>
        ((none, none),
         ["Error reading file: " ++ file_path, "Reason: " ++ e])

/-! ## Metadata Reader

`os.path.getmtime` / `os.path.getctime` either return a timestamp or
raise `OSError`; `datetime.datetime.fromtimestamp` is an order embedding
of timestamps, so timestamps are modelled directly as `Int`.
`datetime.datetime.now()` is the environment's `now`. -/

structure TimeEnv where
  getmtime : String → Except String Int
  getctime : String → Except String Int
  now : Int
  isWindows : Bool

/-- `get_creation_time` (lines 22-43): `getctime` on Windows, `getmtime`
elsewhere; on `OSError` print a message and fall back to `now`. -/
def get_creation_time (env : TimeEnv) (file_path : String) :
    Int × List String :=
  match (if env.isWindows then env.getctime file_path
         else env.getmtime file_path) with
  | .ok timestamp => (timestamp, [])
  | .error e =>
      (env.now, ["Error getting creation time for " ++ file_path ++ ": " ++ e])

/-- `get_last_modification_time` (lines 45-60): `getmtime`; on `OSError`
print a message and fall back to `now`. -/
def get_last_modification_time (env : TimeEnv) (file_path : String) :
    Int × List String :=
  match env.getmtime file_path with
  | .ok timestamp => (timestamp, [])
  | .error e =>
      (env.now,
       ["Error getting modification time for " ++ file_path ++ ": " ++ e])

/-! ## Parallel Scan Coordinator (lines 84-99)

The worker pool delivers one `(file_path, file_hash)` result per
submitted path, in a completion order that is an arbitrary permutation of
the submission order; the collection loop is the fold below.  The Python
dict `file_hashes` is an association list queried with `List.lookup`
(new keys are only ever inserted when absent, so insertion position does
not affect lookups). -/

structure ScanState where
  file_hashes : List (String × Option String)
  duplicates : List (Option String × Option String)
deriving DecidableEq, Repr

/-- One iteration of the `for future in as_completed(...)` loop: drop
falsy hashes (`None` or the empty string), emit a `DuplicatePair`
`(file_path, file_hashes[file_hash])` when the digest is already indexed,
and record `file_hashes[file_hash] = file_path` otherwise. -/
def processResult (st : ScanState) (r : Option String × Option String) :
    ScanState :=
  match r.2 with
  | none => st
  | some file_hash =>
      if file_hash = "" then st
      else
        match st.file_hashes.lookup file_hash with
        | some first_seen =>
            { st with duplicates := st.duplicates ++ [(r.1, first_seen)] }
        | none =>
            { st with file_hashes := (file_hash, r.1) :: st.file_hashes }

/-- The whole collection loop, starting from the empty index. -/
def collectResults (results : List (Option String × Option String)) :
    ScanState :=
  results.foldl processResult { file_hashes := [], duplicates := [] }

/-! ## Duplicate Resolver (lines 101-127) -/

/-- Lines 106-107: given a pair `(dup_file, orig_file)` (candidate,
first-seen), the file with the later modification time is the duplicate.
Returns `(original_file, duplicate_file)`. -/
def resolvePair (mtime : String → Int) (dup_file orig_file : String) :
    String × String :=
  let duplicate_file :=
    if mtime dup_file > mtime orig_file then dup_file else orig_file
  let original_file :=
    if duplicate_file = dup_file then orig_file else dup_file
  (original_file, duplicate_file)

inductive PairOutcome
  | Deleted
  | Kept
  | DeletionFailed
deriving DecidableEq, Repr

/-- The interactive collaborators of the resolution loop: the timestamp
source, the user's validated Y/N answer for a presented
`(original, duplicate)` pair (the re-prompting loop only exits on `Y` or
`N`), and `os.remove`, which may raise `OSError`. -/
structure ResolverEnv where
  mtime : String → Int
  decision : String → String → Bool
  remove : String → Except String Unit

/-- The body of the `for dup_file, orig_file in duplicates` loop for one
pair: designate original/duplicate, present them, and on an affirmative
answer attempt the deletion, logging success or failure.  Returns the
pair's terminal state and the lines printed. -/
def processPair (env : ResolverEnv) (dup_file orig_file : String) :
    PairOutcome × List String :=
  let r := resolvePair env.mtime dup_file orig_file
  let original_file := r.1
  let duplicate_file := r.2
  let header := ["Original: " ++ original_file,
                 "Duplicate: " ++ duplicate_file]
  if env.decision original_file duplicate_file then
    match env.remove duplicate_file with
    | .ok _ =>
        (PairOutcome.Deleted,
         header ++ ["Successfully deleted: " ++ duplicate_file])
    | .error e =>
        (PairOutcome.DeletionFailed,
         header ++ ["Error deleting file " ++ duplicate_file ++ ": " ++ e])
  else (PairOutcome.Kept, header)

/-- The whole resolution loop over the duplicates list: one terminal
state per pair, in order, with the concatenated log. -/
def resolveAll (env : ResolverEnv) (pairs : List (String × String)) :
    List PairOutcome × List String :=
  match pairs with
  | [] => ([], [])
  | (dup_file, orig_file) :: rest =>
      let step := processPair env dup_file orig_file
      let r := resolveAll env rest
      (step.1 :: r.1, step.2 ++ r.2)

/-! ## The three-file scenario (spec §8)

Files `A` (content "x"), `B` (content "x"), `C` (content "y") with
modification times `T1`, `T2`, `T3`. -/

def contentX : List Nat := [120]

def contentY : List Nat := [121]

def fsABC : FileSystem where
  isfile := fun p => p = "A" || p = "B" || p = "C"
  readFile := fun p =>
    if p = "A" then .ok contentX
    else if p = "B" then .ok contentX
    else if p = "C" then .ok contentY
    else .error "No such file or directory"

def mtimeABC (T1 T2 T3 : Int) : String → Int :=
  fun p => if p = "A" then T1 else if p = "B" then T2 else T3

/-! ## Concrete environments used as witnesses -/

/-- A timestamp source under which every file has the same mtime. -/
def mtimeTie : String → Int := fun _ => 0

/-- A timestamp source under which `"c"` is strictly newer than
everything else. -/
def mtimeCF : String → Int := fun p => if p = "c" then 1 else 0

/-- A filesystem with a single file whose read always fails. -/
def fsErr : FileSystem where
  isfile := fun p => p = "locked"
  readFile := fun _ => .error "Permission denied"

/-- A metadata environment whose `stat` calls always fail. -/
def timeEnvFail : TimeEnv where
  getmtime := fun _ => .error "No such file"
  getctime := fun _ => .error "No such file"
  now := 42
  isWindows := false

/-- A resolver environment that always answers `Y` and whose `os.remove`
always fails. -/
def envFail : ResolverEnv where
  mtime := fun _ => 0
  decision := fun _ _ => true
  remove := fun _ => .error "Read-only file system"

/-! ## General lemmas about the embedded functions -/

/-- Absorbing the content chunk by chunk absorbs exactly the content:
the 8192-byte read loop feeds the file's full byte sequence, in order,
into the hasher. -/
theorem hashLoop_eq (hasher content : List Nat) :
    hashLoop hasher content = hasher ++ content := by
  rw [hashLoop]
  split
  · simp_all
  · rw [hashLoop_eq, List.append_assoc, List.take_append_drop]
termination_by content.length
decreasing_by
  simp only [List.length_drop]
  exact Nat.sub_lt (List.length_pos.mpr (by assumption)) (by decide)

/-- A strictly newer candidate is designated the duplicate, the
first-seen path the original. -/
theorem resolvePair_gt (m : String → Int) (dup_file orig_file : String)
    (h : m dup_file > m orig_file) :
    resolvePair m dup_file orig_file = (orig_file, dup_file) := by
  simp [resolvePair, if_pos h]

/-- A candidate that is older or tied is designated the original, and
the first-seen path becomes the duplicate. -/
theorem resolvePair_le (m : String → Int) (dup_file orig_file : String)
    (h : m dup_file ≤ m orig_file) :
    resolvePair m dup_file orig_file = (dup_file, orig_file) := by
  have h2 : ¬(m dup_file > m orig_file) := not_lt.mpr h
  simp only [resolvePair, if_neg h2]
  by_cases he : orig_file = dup_file
  · simp [he]
  · simp [he]

/-- The MD5 digest is sixteen bytes. -/
theorem md5Bytes_length (msg : List Nat) : (md5Bytes msg).length = 16 := by
  simp [md5Bytes, wordLE]

/-- Every byte of the digest is below 256. -/
theorem md5Bytes_lt (msg : List Nat) (b : Nat) (hb : b ∈ md5Bytes msg) :
    b < 256 := by
  simp only [md5Bytes, wordLE, List.mem_append, List.mem_cons,
    List.not_mem_nil, or_false] at hb
  omega

/-- Rendering a byte list in hex doubles its length. -/
theorem flatMap_byteToHex_length (l : List Nat) :
    (l.flatMap byteToHex).length = 2 * l.length := by
  induction l with
  | nil => simp
  | cons b t ih => simp [byteToHex, ih]; omega

/-- The hex digest has exactly 32 characters. -/
theorem md5hex_length (msg : List Nat) : (md5hex msg).length = 32 := by
  have h1 : (md5hex msg).length = ((md5Bytes msg).flatMap byteToHex).length := rfl
  rw [h1, flatMap_byteToHex_length, md5Bytes_length]

/-- Hex digits of values below 16 are lowercase hexadecimal characters. -/
theorem hexDigitChar_mem (n : Nat) (hn : n < 16) :
    hexDigitChar n ∈ "0123456789abcdef".data := by
  revert n
  decide

/-- Every character of the hex digest is a lowercase hexadecimal digit. -/
theorem md5hex_hexchars (msg : List Nat) (c : Char)
    (hc : c ∈ (md5hex msg).data) : c ∈ "0123456789abcdef".data := by
  simp only [md5hex, String.data, List.mem_flatMap] at hc
  obtain ⟨b, hb, hcb⟩ := hc
  have hblt := md5Bytes_lt msg b hb
  simp only [byteToHex, List.mem_cons, List.not_mem_nil, or_false] at hcb
  rcases hcb with rfl | rfl
  · exact hexDigitChar_mem _ (Nat.div_lt_of_lt_mul (by omega))
  · exact hexDigitChar_mem _ (Nat.mod_lt _ (by decide))

/-- A digest already recorded in the index keeps its first-seen path
across one collection step. -/
theorem processResult_lookup_stable (st : ScanState)
    (r : Option String × Option String) (h : String) (p : Option String)
    (hp : st.file_hashes.lookup h = some p) :
    (processResult st r).file_hashes.lookup h = some p := by
  rcases r with ⟨fp, fh⟩
  cases fh with
  | none => simpa [processResult]
  | some s =>
    by_cases hs : s = ""
    · simpa [processResult, hs]
    · simp only [processResult, if_neg hs]
      cases hl : st.file_hashes.lookup s with
      | some q => simpa
      | none =>
        have hne : (h == s) = false := by
          rcases eq_or_ne h s with rfl | hhs
          · rw [hp] at hl; cases hl
          · exact beq_false_of_ne hhs
        simpa [List.lookup, hne]

/-- Collection never removes an emitted pair. -/
theorem processResult_duplicates_mono (st : ScanState)
    (r : Option String × Option String) (q : Option String × Option String)
    (hq : q ∈ st.duplicates) : q ∈ (processResult st r).duplicates := by
  rcases r with ⟨fp, fh⟩
  cases fh with
  | none => simpa [processResult]
  | some s =>
    by_cases hs : s = ""
    · simpa [processResult, hs]
    · simp only [processResult, if_neg hs]
      cases hl : st.file_hashes.lookup s with
      | some x => simp [hq]
      | none => simpa

/-- Processing a result whose digest is already indexed emits exactly
the pair `(candidate, first-seen)` and leaves the index unchanged. -/
theorem processResult_emit (st : ScanState) (c : Option String) (h : String)
    (p : Option String) (hne : h ≠ "")
    (hp : st.file_hashes.lookup h = some p) :
    processResult st (c, some h)
      = { st with duplicates := st.duplicates ++ [(c, p)] } := by
  simp [processResult, if_neg hne, hp]

/-- Index stability over the whole remainder of the collection fold. -/
theorem collect_lookup_stable (rs : List (Option String × Option String))
    (st : ScanState) (h : String) (p : Option String)
    (hp : st.file_hashes.lookup h = some p) :
    (rs.foldl processResult st).file_hashes.lookup h = some p := by
  induction rs generalizing st with
  | nil => simpa
  | cons r t ih => exact ih _ (processResult_lookup_stable st r h p hp)

/-- Pair-list monotonicity over the whole collection fold. -/
theorem collect_duplicates_mono (rs : List (Option String × Option String))
    (st : ScanState) (q : Option String × Option String)
    (hq : q ∈ st.duplicates) : q ∈ (rs.foldl processResult st).duplicates := by
  induction rs generalizing st with
  | nil => simpa
  | cons r t ih => exact ih _ (processResult_duplicates_mono st r q hq)

/-- Once a digest is indexed with first-seen path `p`, every remaining
result carrying that digest yields the pair `(candidate, p)`. -/
theorem collect_emits (rs : List (Option String × Option String))
    (st : ScanState) (h : String) (p : Option String) (c : Option String)
    (hne : h ≠ "") (hp : st.file_hashes.lookup h = some p)
    (hc : (c, some h) ∈ rs) :
    (c, p) ∈ (rs.foldl processResult st).duplicates := by
  induction rs generalizing st with
  | nil => cases hc
  | cons r t ih =>
    rcases List.mem_cons.mp hc with rfl | hc
    · have := processResult_emit st c h p hne hp
      refine collect_duplicates_mono t _ (c, p) ?_
      rw [this]
      simp
    · exact ih _ (processResult_lookup_stable st r h p hp) hc

/-- The resolution loop produces one terminal state per duplicate pair. -/
theorem resolveAll_length (env : ResolverEnv)
    (pairs : List (String × String)) :
    (resolveAll env pairs).1.length = pairs.length := by
  induction pairs with
  | nil => rfl
  | cons pr t ih => rcases pr with ⟨d, o⟩; simp [resolveAll, ih]

/-- The hash result of scenario file `A`. -/
theorem calcA : (calculate_file_hash fsABC "A").1
    = (some "A", some (md5hex contentX)) := by
  simp [calculate_file_hash, fsABC, hashLoop_eq]

/-- The hash result of scenario file `B`. -/
theorem calcB : (calculate_file_hash fsABC "B").1
    = (some "B", some (md5hex contentX)) := by
  simp [calculate_file_hash, fsABC, hashLoop_eq]

/-- The hash result of scenario file `C`. -/
theorem calcC : (calculate_file_hash fsABC "C").1
    = (some "C", some (md5hex contentY)) := by
  simp [calculate_file_hash, fsABC, hashLoop_eq]

/-! ## The claims -/

/-- C1 counterexample: with an exact mtime tie between candidate `"c"`
and first-seen `"f"`, the resolver does NOT designate the first-seen
path as original — the original slot holds the candidate `"c"`. -/
theorem c1_counterexample :
    mtimeTie "c" ≤ mtimeTie "f" ∧
    (resolvePair mtimeTie "c" "f").1 ≠ "f" := by
  constructor
  · exact le_refl 0
  · decide

/-- C1 (amended): for every DuplicatePair whose candidate mtime is less
than or equal to the first-seen path's mtime, the resolver designates
the CANDIDATE as the original and the first-seen path as the duplicate;
in particular, on an exact timestamp tie the first-seen path is the one
deleted. -/
theorem c1_tie_or_older_keeps_candidate (m : String → Int)
    (dup_file orig_file : String) (h : m dup_file ≤ m orig_file) :
    resolvePair m dup_file orig_file = (dup_file, orig_file) :=
  resolvePair_le m dup_file orig_file h

/-- Witness for the amended C1 at a concrete tie. -/
theorem c1_tie_or_older_keeps_candidate_witness :
    mtimeTie "c" ≤ mtimeTie "f" ∧
    resolvePair mtimeTie "c" "f" = ("c", "f") :=
  ⟨le_refl 0, c1_tie_or_older_keeps_candidate mtimeTie "c" "f" (le_refl 0)⟩

/-- C2: for every DuplicatePair whose candidate mtime is strictly
greater than the first-seen path's mtime, the candidate is designated
duplicate and the first-seen path original. -/
theorem c2_newer_candidate_is_duplicate (m : String → Int)
    (dup_file orig_file : String) (h : m dup_file > m orig_file) :
    resolvePair m dup_file orig_file = (orig_file, dup_file) :=
  resolvePair_gt m dup_file orig_file h

/-- Witness for C2 at a concrete strictly-newer candidate. -/
theorem c2_newer_candidate_is_duplicate_witness :
    mtimeCF "c" > mtimeCF "f" ∧
    resolvePair mtimeCF "c" "f" = ("f", "c") :=
  ⟨by decide, c2_newer_candidate_is_duplicate mtimeCF "c" "f" (by decide)⟩

/-- C3: each completed result is handled by exactly one of three rules:
no fingerprint — state untouched; fresh non-empty fingerprint — the
mapping fingerprint-to-path is added to the index and no pair is
emitted; already-indexed fingerprint — the pair
(candidate, indexed path) is emitted and the index is unchanged. -/
theorem c3_coordinator_cases (st : ScanState)
    (r : Option String × Option String) :
    (r.2 = none → processResult st r = st) ∧
    (∀ h, r.2 = some h → h ≠ "" → st.file_hashes.lookup h = none →
       processResult st r
         = { file_hashes := (h, r.1) :: st.file_hashes,
             duplicates := st.duplicates }) ∧
    (∀ h p, r.2 = some h → h ≠ "" → st.file_hashes.lookup h = some p →
       processResult st r
         = { file_hashes := st.file_hashes,
             duplicates := st.duplicates ++ [(r.1, p)] }) := by
  obtain ⟨fp, fh⟩ := r
  refine ⟨fun hn => ?_, fun h hs hne hl => ?_, fun h p hs hne hl => ?_⟩
  · have hfh : fh = none := hn
    simp [processResult, hfh]
  · have hfh : fh = some h := hs
    subst hfh
    simp [processResult, if_neg hne, hl]
  · have hfh : fh = some h := hs
    subst hfh
    simp [processResult, if_neg hne, hl]

/-- Witness for C3: the three rules at concrete states. -/
theorem c3_coordinator_cases_witness :
    processResult ⟨[("h", some "p")], []⟩ (some "q", none)
      = ⟨[("h", some "p")], []⟩ ∧
    processResult ⟨[("h", some "p")], []⟩ (some "q", some "g")
      = ⟨[("g", some "q"), ("h", some "p")], []⟩ ∧
    processResult ⟨[("h", some "p")], []⟩ (some "q", some "h")
      = ⟨[("h", some "p")], [(some "q", some "p")]⟩ :=
  ⟨(c3_coordinator_cases ⟨[("h", some "p")], []⟩ (some "q", none)).1 rfl,
   (c3_coordinator_cases ⟨[("h", some "p")], []⟩ (some "q", some "g")).2.1
     "g" rfl (by decide) rfl,
   (c3_coordinator_cases ⟨[("h", some "p")], []⟩ (some "q", some "h")).2.2
     "h" (some "p") rfl (by decide) rfl⟩

/-- C4: once a digest is recorded in the index with first-seen path `p`,
the entry survives the rest of the collection fold unchanged, and every
further result carrying that digest contributes a pair whose first-seen
component is that same `p`. -/
theorem c4_first_seen_is_stable (rs : List (Option String × Option String))
    (st : ScanState) (h : String) (p : Option String) (hne : h ≠ "")
    (hp : st.file_hashes.lookup h = some p) :
    (rs.foldl processResult st).file_hashes.lookup h = some p ∧
    ∀ c, (c, some h) ∈ rs → (c, p) ∈ (rs.foldl processResult st).duplicates :=
  ⟨collect_lookup_stable rs st h p hp,
   fun c hc => collect_emits rs st h p c hne hp hc⟩

/-- Witness for C4: three files sharing digest `"h"` all pair with the
first-seen path `"p"`. -/
theorem c4_first_seen_is_stable_witness :
    (([(some "q", some "h"), (some "r", some "h")] :
        List (Option String × Option String)).foldl processResult
      ⟨[("h", some "p")], []⟩).file_hashes.lookup "h" = some (some "p") ∧
    (some "q", some "p")
      ∈ (([(some "q", some "h"), (some "r", some "h")] :
            List (Option String × Option String)).foldl processResult
          ⟨[("h", some "p")], []⟩).duplicates ∧
    (some "r", some "p")
      ∈ (([(some "q", some "h"), (some "r", some "h")] :
            List (Option String × Option String)).foldl processResult
          ⟨[("h", some "p")], []⟩).duplicates :=
  ⟨(c4_first_seen_is_stable [(some "q", some "h"), (some "r", some "h")]
      ⟨[("h", some "p")], []⟩ "h" (some "p") (by decide) (by decide)).1,
   (c4_first_seen_is_stable [(some "q", some "h"), (some "r", some "h")]
      ⟨[("h", some "p")], []⟩ "h" (some "p") (by decide) (by decide)).2
     (some "q") (by simp),
   (c4_first_seen_is_stable [(some "q", some "h"), (some "r", some "h")]
      ⟨[("h", some "p")], []⟩ "h" (some "p") (by decide) (by decide)).2
     (some "r") (by simp)⟩

/-- C6: the fingerprint is a function of the file's byte content alone —
two readable regular files with identical content receive the same
digest string, whatever their paths or filesystems. -/
theorem c6_digest_depends_only_on_content (fs1 fs2 : FileSystem)
    (p1 p2 : String) (c : List Nat)
    (h1 : fs1.isfile p1 = true) (h2 : fs1.readFile p1 = .ok c)
    (h3 : fs2.isfile p2 = true) (h4 : fs2.readFile p2 = .ok c) :
    (calculate_file_hash fs1 p1).1.2 = (calculate_file_hash fs2 p2).1.2 ∧
    (calculate_file_hash fs1 p1).1.2 = some (md5hex c) := by
  simp [calculate_file_hash, h1, h2, h3, h4, hashLoop_eq]

/-- Witness for C6: files `A` and `B` of the scenario share content. -/
theorem c6_digest_depends_only_on_content_witness :
    (calculate_file_hash fsABC "A").1.2 = (calculate_file_hash fsABC "B").1.2 ∧
    (calculate_file_hash fsABC "A").1.2 = some (md5hex contentX) :=
  c6_digest_depends_only_on_content fsABC fsABC "A" "B" contentX
    rfl rfl rfl rfl

/-- C7: the Fingerprinter is total — a missing or non-regular path
yields the no-fingerprint result with nothing printed, and a read
failure yields the no-fingerprint result together with at least one
diagnostic line; no input aborts the scan. -/
theorem c7_fingerprinter_never_aborts (fs : FileSystem) (p : String) :
    (fs.isfile p = false → calculate_file_hash fs p = ((none, none), [])) ∧
    (∀ e, fs.isfile p = true → fs.readFile p = .error e →
       (calculate_file_hash fs p).1 = (none, none) ∧
       (calculate_file_hash fs p).2 ≠ []) := by
  refine ⟨fun hf => ?_, fun e hf he => ?_⟩
  · simp [calculate_file_hash, hf]
  · simp [calculate_file_hash, hf, he]

/-- Witness for C7: a missing path and an unreadable file. -/
theorem c7_fingerprinter_never_aborts_witness :
    calculate_file_hash fsErr "missing" = ((none, none), []) ∧
    (calculate_file_hash fsErr "locked").1 = (none, none) ∧
    (calculate_file_hash fsErr "locked").2 ≠ [] :=
  ⟨(c7_fingerprinter_never_aborts fsErr "missing").1 rfl,
   ((c7_fingerprinter_never_aborts fsErr "locked").2
      "Permission denied" rfl rfl).1,
   ((c7_fingerprinter_never_aborts fsErr "locked").2
      "Permission denied" rfl rfl).2⟩

/-- C8: when reading the modification (or creation) timestamp fails
with an OS error, the Metadata Reader returns the current wall-clock
time instead of propagating the failure, and reports the error. -/
theorem c8_metadata_fallback_to_now (env : TimeEnv) (p e : String) :
    (env.getmtime p = .error e →
       (get_last_modification_time env p).1 = env.now ∧
       (get_last_modification_time env p).2 ≠ []) ∧
    (env.isWindows = true → env.getctime p = .error e →
       (get_creation_time env p).1 = env.now ∧
       (get_creation_time env p).2 ≠ []) ∧
    (env.isWindows = false → env.getmtime p = .error e →
       (get_creation_time env p).1 = env.now ∧
       (get_creation_time env p).2 ≠ []) := by
  refine ⟨fun h => ?_, fun hw h => ?_, fun hw h => ?_⟩
  · simp [get_last_modification_time, h]
  · simp [get_creation_time, hw, h]
  · simp [get_creation_time, hw, h]

/-- Witness for C8: an environment whose stat calls always fail. -/
theorem c8_metadata_fallback_to_now_witness :
    (get_last_modification_time timeEnvFail "p").1 = timeEnvFail.now ∧
    (get_creation_time timeEnvFail "p").1 = timeEnvFail.now :=
  ⟨((c8_metadata_fallback_to_now timeEnvFail "p" "No such file").1 rfl).1,
   ((c8_metadata_fallback_to_now timeEnvFail "p" "No such file").2.2
      rfl rfl).1⟩

/-- C9: when the user answers affirmatively and the deletion of the
designated duplicate fails, the failure is logged and the loop still
processes every remaining pair — one terminal state per pair, the
failing pair's being DeletionFailed. -/
theorem c9_deletion_failure_continues (env : ResolverEnv)
    (dup_file orig_file : String) (rest : List (String × String)) (e : String)
    (hdec : env.decision (resolvePair env.mtime dup_file orig_file).1
              (resolvePair env.mtime dup_file orig_file).2 = true)
    (hrem : env.remove (resolvePair env.mtime dup_file orig_file).2
              = .error e) :
    (resolveAll env ((dup_file, orig_file) :: rest)).1
      = PairOutcome.DeletionFailed :: (resolveAll env rest).1 ∧
    ("Error deleting file " ++ (resolvePair env.mtime dup_file orig_file).2
        ++ ": " ++ e)
      ∈ (resolveAll env ((dup_file, orig_file) :: rest)).2 ∧
    (resolveAll env ((dup_file, orig_file) :: rest)).1.length
      = rest.length + 1 := by
  have hstep : processPair env dup_file orig_file
      = (PairOutcome.DeletionFailed,
         ["Original: " ++ (resolvePair env.mtime dup_file orig_file).1,
          "Duplicate: " ++ (resolvePair env.mtime dup_file orig_file).2,
          "Error deleting file "
            ++ (resolvePair env.mtime dup_file orig_file).2 ++ ": " ++ e]) := by
    simp [processPair, hdec, hrem]
  refine ⟨?_, ?_, ?_⟩
  · simp [resolveAll, hstep]
  · simp [resolveAll, hstep]
  · simp [resolveAll, hstep, resolveAll_length]

/-- Witness for C9: every deletion fails, both pairs still reach a
terminal state. -/
theorem c9_deletion_failure_continues_witness :
    (resolveAll envFail [("a", "b"), ("c", "d")]).1
      = PairOutcome.DeletionFailed :: (resolveAll envFail [("c", "d")]).1 ∧
    ("Error deleting file " ++ (resolvePair envFail.mtime "a" "b").2
        ++ ": " ++ "Read-only file system")
      ∈ (resolveAll envFail [("a", "b"), ("c", "d")]).2 ∧
    (resolveAll envFail [("a", "b"), ("c", "d")]).1.length
      = [("c", "d")].length + 1 :=
  c9_deletion_failure_continues envFail "a" "b" [("c", "d")]
    "Read-only file system" rfl rfl

/-- C10: the Fingerprinter's result is an explicitly tagged pair — on
success it is the input path together with the 32-character lowercase
hexadecimal MD5 digest of the file's full content, and on any failure it
is `(None, None)`; a path never appears without a digest nor a digest
without a path. -/
theorem c10_result_is_tagged_pair (fs : FileSystem) (p : String) :
    (∃ c, fs.isfile p = true ∧ fs.readFile p = .ok c ∧
       (calculate_file_hash fs p).1 = (some p, some (md5hex c)) ∧
       (md5hex c).length = 32 ∧
       ∀ ch ∈ (md5hex c).data, ch ∈ "0123456789abcdef".data) ∨
    (calculate_file_hash fs p).1 = (none, none) := by
  cases hf : fs.isfile p with
  | false => right; simp [calculate_file_hash, hf]
  | true =>
    cases hr : fs.readFile p with
    | ok c =>
      left
      exact ⟨c, rfl, rfl,
        by simp [calculate_file_hash, hf, hr, hashLoop_eq],
        md5hex_length c, fun ch hch => md5hex_hexchars c ch hch⟩
    | error e => right; simp [calculate_file_hash, hf, hr]

/-- C5: scanning files `A` (content "x", mtime `T1`), `B` (content "x",
mtime `T2 > T1`) and `C` (content "y", mtime `T3`) yields exactly one
DuplicatePair whatever the completion order; the resolver designates `B`
the duplicate and `A` the original, and `C` is indexed but paired with
nothing. -/
theorem c5_three_file_scenario (T1 T2 T3 : Int) (hT : T1 < T2)
    (order : List String) (hord : order.Perm ["A", "B", "C"]) :
    ∃ c f,
      (collectResults (order.map
          (fun p => (calculate_file_hash fsABC p).1))).duplicates
        = [(some c, some f)] ∧
      resolvePair (mtimeABC T1 T2 T3) c f = ("A", "B") ∧
      c ≠ "C" ∧ f ≠ "C" ∧
      (collectResults (order.map
          (fun p => (calculate_file_hash fsABC p).1))).file_hashes.lookup
          (md5hex contentY) = some (some "C") := by
  have hmem : order ∈ (["A", "B", "C"] : List String).permutations' :=
    List.mem_permutations'.mpr hord
  have hperm : (["A", "B", "C"] : List String).permutations'
      = [["A", "B", "C"], ["B", "A", "C"], ["B", "C", "A"],
         ["A", "C", "B"], ["C", "A", "B"], ["C", "B", "A"]] := by decide
  rw [hperm] at hmem
  have mA : mtimeABC T1 T2 T3 "A" = T1 := rfl
  have mB : mtimeABC T1 T2 T3 "B" = T2 := rfl
  have hBA : resolvePair (mtimeABC T1 T2 T3) "B" "A" = ("A", "B") :=
    resolvePair_gt _ "B" "A" (by rw [mA, mB]; exact hT)
  have hAB : resolvePair (mtimeABC T1 T2 T3) "A" "B" = ("A", "B") :=
    resolvePair_le _ "A" "B" (by rw [mA, mB]; exact le_of_lt hT)
  simp only [List.mem_cons, List.not_mem_nil, or_false] at hmem
  rcases hmem with rfl | rfl | rfl | rfl | rfl | rfl
  · exact ⟨"B", "A",
      by simp only [List.map_cons, List.map_nil, calcA, calcB, calcC]; decide,
      hBA, by decide, by decide,
      by simp only [List.map_cons, List.map_nil, calcA, calcB, calcC]; decide⟩
  · exact ⟨"A", "B",
      by simp only [List.map_cons, List.map_nil, calcA, calcB, calcC]; decide,
      hAB, by decide, by decide,
      by simp only [List.map_cons, List.map_nil, calcA, calcB, calcC]; decide⟩
  · exact ⟨"A", "B",
      by simp only [List.map_cons, List.map_nil, calcA, calcB, calcC]; decide,
      hAB, by decide, by decide,
      by simp only [List.map_cons, List.map_nil, calcA, calcB, calcC]; decide⟩
  · exact ⟨"B", "A",
      by simp only [List.map_cons, List.map_nil, calcA, calcB, calcC]; decide,
      hBA, by decide, by decide,
      by simp only [List.map_cons, List.map_nil, calcA, calcB, calcC]; decide⟩
  · exact ⟨"B", "A",
      by simp only [List.map_cons, List.map_nil, calcA, calcB, calcC]; decide,
      hBA, by decide, by decide,
      by simp only [List.map_cons, List.map_nil, calcA, calcB, calcC]; decide⟩
  · exact ⟨"A", "B",
      by simp only [List.map_cons, List.map_nil, calcA, calcB, calcC]; decide,
      hAB, by decide, by decide,
      by simp only [List.map_cons, List.map_nil, calcA, calcB, calcC]; decide⟩

/-- Witness for C5 at `T1 = 0 < T2 = 1`, `T3 = 5`, completion order
`B, A, C`. -/
theorem c5_three_file_scenario_witness :
    (0 : Int) < 1 ∧
    (["B", "A", "C"] : List String).Perm ["A", "B", "C"] ∧
    (∃ c f,
      (collectResults ((["B", "A", "C"] : List String).map
          (fun p => (calculate_file_hash fsABC p).1))).duplicates
        = [(some c, some f)] ∧
      resolvePair (mtimeABC 0 1 5) c f = ("A", "B") ∧
      c ≠ "C" ∧ f ≠ "C" ∧
      (collectResults ((["B", "A", "C"] : List String).map
          (fun p => (calculate_file_hash fsABC p).1))).file_hashes.lookup
          (md5hex contentY) = some (some "C")) :=
  ⟨by decide, List.Perm.swap "A" "B" ["C"],
   c5_three_file_scenario 0 1 5 (by decide) ["B", "A", "C"]
     (List.Perm.swap "A" "B" ["C"])⟩
